import Mathlib

/-!
Verification of the vaccination-coverage ETL pipeline.

The development shallowly embeds the transform, store, comparator and
batch entry-point logic of `etl_pipeline.py` (shared with
`streamlit_app.py`): CSV rows become records with optional rational
cells, the SQLite tables become lists of records, and floating-point
percentages become rationals.
-/

namespace VaccinationETL

/-- The fixed marker used by `run_etl` to recognise coverage columns:
`coverage_cols = [c for c in df.columns if c.startswith("coverage__")]`. -/
def coverageMarker : String := "coverage__"

/-- One data row of the upstream CSV: the `Entity` and `Year` metadata
cells plus the data cells, aligned with the column-name list of the
table.  A `none` cell is a null (empty) value in the CSV. -/
structure RawRow where
  entity : String
  year : Int
  cells : List (Option ℚ)
deriving DecidableEq

/-- The parsed upstream CSV (`df` in `run_etl`): the names of the data
columns besides `Entity` and `Year`, and the rows. -/
structure RawCsv where
  columns : List String
  rows : List RawRow
deriving DecidableEq

/-- One row of the normalized `immunization` table. -/
structure CoverageRecord where
  country : String
  antigen : String
  year : Int
  coverage_pct : ℚ
deriving DecidableEq

/-- Python's `c.startswith("coverage__")`, as a prefix test on the
character sequences of the two strings. -/
def startsWithMarker (c : String) : Bool := coverageMarker.data.isPrefixOf c.data

/-- The melt step of `run_etl`: for each row and each column whose name
starts with `coverage__`, one long-format entry
`(Entity, Year, antigen := column name, coverage_pct := cell)`.
`df.melt(id_vars=["Entity", "Year"], value_vars=coverage_cols,
var_name="antigen", value_name="coverage_pct")`. -/
def melt (csv : RawCsv) : List (String × Int × String × Option ℚ) :=
  csv.rows.flatMap (fun r =>
    ((csv.columns.zip r.cells).filter (fun p => startsWithMarker p.1)).map
      (fun p => (r.entity, r.year, p.1, p.2)))

/-- The `.dropna()` and column-rename steps applied to one melted entry:
a null `coverage_pct` drops the entry, otherwise `Entity` becomes
`country` and `Year` becomes `year`. -/
def dropnaRename (x : String × Int × String × Option ℚ) : Option CoverageRecord :=
  match x with
  | (e, y, c, some v) => some { country := e, antigen := c, year := y, coverage_pct := v }
  | (_, _, _, none) => none

/-- The transform step of `run_etl` producing `df_tidy`: melt, drop
nulls, rename, then keep years with `df_tidy["year"].between(1980, 2100)`
(inclusive on both ends). -/
def run_etl_tidy (csv : RawCsv) : List CoverageRecord :=
  ((melt csv).filterMap dropnaRename).filter
    (fun r => decide (1980 ≤ r.year ∧ r.year ≤ 2100))

/-- Arithmetic mean of a list of values (`np.mean` / pandas `.mean()`
over the already-null-free window values). -/
def listMean (l : List ℚ) : ℚ := l.sum / (l.length : ℚ)

/-- The before window of `run_analysis`:
`series[(series["year"] >= start_year - pre_years) & (series["year"] <= start_year - 1)]`. -/
def beforeWindow (series : List (Int × ℚ)) (start_year pre_years : Int) : List (Int × ℚ) :=
  series.filter (fun p => decide (start_year - pre_years ≤ p.1 ∧ p.1 ≤ start_year - 1))

/-- The after window of `run_analysis`:
`series[(series["year"] >= start_year) & (series["year"] <= start_year + post_years)]`. -/
def afterWindow (series : List (Int × ℚ)) (start_year post_years : Int) : List (Int × ℚ) :=
  series.filter (fun p => decide (start_year ≤ p.1 ∧ p.1 ≤ start_year + post_years))

/-- `before_vals`: the `coverage_pct` column of the before window. -/
def beforeVals (series : List (Int × ℚ)) (start_year pre_years : Int) : List ℚ :=
  (beforeWindow series start_year pre_years).map Prod.snd

/-- `after_vals`: the `coverage_pct` column of the after window. -/
def afterVals (series : List (Int × ℚ)) (start_year post_years : Int) : List ℚ :=
  (afterWindow series start_year post_years).map Prod.snd

/-- The exactly-computable part of the comparison output:
`avg_before = before_vals.mean()`, `avg_after = after_vals.mean()`,
`diff = avg_after - avg_before`.  The t-statistic and p-value involve
square roots and the t-distribution and are not carried here. -/
structure ComparisonStats where
  avg_before : ℚ
  avg_after : ℚ
  diff : ℚ
deriving DecidableEq

/-- Outcome of the before/after comparison: statistics, or the
insufficient-data outcome taken when `run_analysis` falls into its
`else: print("⚠️ Not enough data points ...")` branch. -/
inductive CompareResult where
  | insufficientData : CompareResult
  | stats : ComparisonStats → CompareResult
deriving DecidableEq

/-- The comparison logic shared by both entry points, gated by
`if len(before_vals) > 1 and len(after_vals) > 1:`. -/
def compareWindows (series : List (Int × ℚ)) (start_year pre_years post_years : Int) : CompareResult :=
  if 1 < (beforeVals series start_year pre_years).length ∧
      1 < (afterVals series start_year post_years).length then
    CompareResult.stats
      { avg_before := listMean (beforeVals series start_year pre_years)
        avg_after := listMean (afterVals series start_year post_years)
        diff := listMean (afterVals series start_year post_years) -
          listMean (beforeVals series start_year pre_years) }
  else CompareResult.insufficientData

/-- `mean_ci(data, confidence)`: with fewer than 2 values it returns
`(np.nan, np.nan)`, modelled as `(none, none)`; otherwise
`(mean - h, mean + h)`.  The half-width
`h = sem(data) * t.ppf((1 + confidence) / 2, len(data) - 1)` mixes a
square root with the inverse t-distribution, so it is abstracted as the
function argument `hw`. -/
def mean_ci (hw : List ℚ → ℚ) (data : List ℚ) : Option ℚ × Option ℚ :=
  if data.length < 2 then (none, none)
  else (some (listMean data - hw data), some (listMean data + hw data))

/-- The composite primary key `(country, antigen, year)` of the
`immunization` table. -/
def recordKey (r : CoverageRecord) : String × String × Int := (r.country, r.antigen, r.year)

/-- Bulk insert of `df_tidy` into the freshly created `immunization`
table (`df_tidy.to_sql(TABLE_CLEAN, conn, if_exists="append")`); the
primary key makes the insert fail on duplicate keys, modelled as
`none`. -/
def loadCoverage (tbl : List CoverageRecord) : Option (List CoverageRecord) :=
  if (tbl.map recordKey).Nodup then some tbl else none

/-- Ordering on `(year, coverage_pct)` pairs used by `ORDER BY year`. -/
def yearLE (p q : Int × ℚ) : Prop := p.1 ≤ q.1

instance : DecidableRel yearLE := fun p q => inferInstanceAs (Decidable (p.1 ≤ q.1))

instance : IsTotal (Int × ℚ) yearLE := ⟨fun p q => Int.le_total p.1 q.1⟩

instance : IsTrans (Int × ℚ) yearLE := ⟨fun _ _ _ h h2 => le_trans h h2⟩

/-- `SELECT year, coverage_pct FROM immunization WHERE country = ? AND
antigen = ? ORDER BY year;` over the stored table. -/
def queryCoverage (store : List CoverageRecord) (country antigen : String) : List (Int × ℚ) :=
  List.insertionSort yearLE
    ((store.filter (fun r => decide (r.country = country ∧ r.antigen = antigen))).map
      (fun r => (r.year, r.coverage_pct)))

/-- The two tables of `vaccination.db`; `none` means the table does not
exist yet. -/
structure Database where
  owid_raw : Option RawCsv
  immunization : Option (List CoverageRecord)
deriving DecidableEq

/-- The full ETL run over an upstream snapshot: replace `owid_raw`
wholesale, drop and recreate `immunization`, bulk-insert the tidy
rows.  The prior database contents are discarded entirely. -/
def run_etl (csv : RawCsv) (db : Database) : Option Database :=
  match db, loadCoverage (run_etl_tidy csv) with
  | _, some tbl => some { owid_raw := some csv, immunization := some tbl }
  | _, none => none

/-- `.replace(" ", "_")` applied to an output filename: since the
pattern is the single character `' '`, the replacement substitutes
`'_'` for every space character. -/
def sanitizeName (s : String) : String :=
  String.mk (s.data.map (fun ch => if ch = ' ' then '_' else ch))

/-- `f"coverage_{country}_{antigen}.csv".replace(" ", "_")`. -/
def out_csv (country antigen : String) : String :=
  sanitizeName ( "coverage_" ++ country ++ "_" ++ antigen ++ ".csv" )

/-- `f"plot_{country}_{antigen}.png".replace(" ", "_")`. -/
def out_png (country antigen : String) : String :=
  sanitizeName ( "plot_" ++ country ++ "_" ++ antigen ++ ".png" )

/-- Observable outcome of `run_analysis`: the empty-series early return,
the not-enough-data notice, or a report carrying the statistics and the
names of the two artifact files it saves. -/
inductive AnalysisOutcome where
  | noData : AnalysisOutcome
  | notEnoughData : AnalysisOutcome
  | report : ComparisonStats → String → String → AnalysisOutcome
deriving DecidableEq

/-- `run_analysis(country, antigen, start_year, pre_years, post_years)`
over the stored `immunization` table. -/
def run_analysis (store : List CoverageRecord) (country antigen : String)
    (start_year pre_years post_years : Int) : AnalysisOutcome :=
  let series := queryCoverage store country antigen
  if series.isEmpty then AnalysisOutcome.noData
  else
    match compareWindows series start_year pre_years post_years with
    | CompareResult.insufficientData => AnalysisOutcome.notEnoughData
    | CompareResult.stats st =>
        AnalysisOutcome.report st (out_csv country antigen) (out_png country antigen)

/-- The artifact files an analysis outcome writes to the working
directory. -/
def artifactsWritten : AnalysisOutcome → List String
  | AnalysisOutcome.report _ c p => [c, p]
  | _ => []

/-- The `__main__` block: always run the ETL, then
`if args.country and args.antigen: run_analysis(...)`.  An absent
argument is `none`; Python truthiness also skips the analysis when a
supplied string is empty.  Returns the resulting database and the list
of artifact files written. -/
def main_run (csv : RawCsv) (db : Database) (country antigen : Option String)
    (start_year pre_years post_years : Int) : Option (Database × List String) :=
  match run_etl csv db with
  | none => none
  | some db2 =>
    match country, antigen with
    | some c, some a =>
        if c ≠ "" ∧ a ≠ "" then
          some (db2,
            artifactsWritten
              (run_analysis (db2.immunization.getD []) c a start_year pre_years post_years))
        else some (db2, [])
    | _, _ => some (db2, [])

/-! ### Helper lemmas -/

/-- `dropnaRename` succeeds exactly on melted entries with a non-null
value, and then only repackages the fields. -/
theorem dropnaRename_eq_some_iff (x : String × Int × String × Option ℚ) (r : CoverageRecord) :
    dropnaRename x = some r ↔ x = (r.country, r.year, r.antigen, some r.coverage_pct) := by
  obtain ⟨e, y, c, ov⟩ := x
  obtain ⟨rc, ra, ry, rp⟩ := r
  cases ov with
  | none => simp [dropnaRename]
  | some v =>
    simp only [dropnaRename, Option.some.injEq, CoverageRecord.mk.injEq, Prod.mk.injEq]
    constructor
    · rintro ⟨h1, h2, h3, h4⟩
      exact ⟨h1, h3, h2, h4⟩
    · rintro ⟨h1, h2, h3, h4⟩
      exact ⟨h1, h3, h2, h4⟩

/-! ### Claims -/

/-- C2: for every series and every campaign year and window sizes, the
comparison yields the insufficient-data outcome if and only if the
before window or the after window has fewer than 2 observations. -/
theorem C2_insufficient_iff (series : List (Int × ℚ)) (start_year pre_years post_years : Int) :
    compareWindows series start_year pre_years post_years = CompareResult.insufficientData ↔
      (beforeVals series start_year pre_years).length < 2 ∨
        (afterVals series start_year post_years).length < 2 := by
  by_cases h : 1 < (beforeVals series start_year pre_years).length ∧
      1 < (afterVals series start_year post_years).length
  · rw [compareWindows, if_pos h]
    simp only [iff_false, reduceCtorEq, false_iff]
    omega
  · rw [compareWindows, if_neg h]
    simp only [true_iff]
    omega

/-- C5: for every series, campaign year and window sizes, the before
window holds exactly the observations with year in
`[start_year - pre_years, start_year - 1]` and the after window holds
exactly those with year in `[start_year, start_year + post_years]`,
bounds inclusive. -/
theorem C5_window_partition (series : List (Int × ℚ)) (start_year pre_years post_years : Int)
    (x : Int × ℚ) :
    (x ∈ beforeWindow series start_year pre_years ↔
      x ∈ series ∧ start_year - pre_years ≤ x.1 ∧ x.1 ≤ start_year - 1) ∧
    (x ∈ afterWindow series start_year post_years ↔
      x ∈ series ∧ start_year ≤ x.1 ∧ x.1 ≤ start_year + post_years) := by
  constructor <;> simp [beforeWindow, afterWindow, List.mem_filter]

/-- C7: with fewer than 2 input values, `mean_ci` returns the
not-a-number sentinel for both confidence bounds, for any half-width
function. -/
theorem C7_mean_ci_nan (hw : List ℚ → ℚ) (data : List ℚ) (h : data.length < 2) :
    mean_ci hw data = (none, none) := by
  rw [mean_ci, if_pos h]

/-- Witness for C7 at the empty list. -/
theorem C7_mean_ci_nan_witness :
    ([] : List ℚ).length < 2 ∧ mean_ci (fun _ => 0) ([] : List ℚ) = (none, none) :=
  ⟨by decide, C7_mean_ci_nan (fun _ => 0) [] (by decide)⟩

/-- C8: every record produced by the transform has its year between
1980 and 2100 inclusive. -/
theorem C8_year_range (csv : RawCsv) (r : CoverageRecord) (h : r ∈ run_etl_tidy csv) :
    1980 ≤ r.year ∧ r.year ≤ 2100 := by
  unfold run_etl_tidy at h
  have h2 := (List.mem_filter.mp h).2
  simpa using h2

/-- A small upstream snapshot used to witness C8. -/
def csvC8 : RawCsv :=
  { columns := ["coverage__mcv1"],
    rows := [ { entity := "India", year := 2000, cells := [some 50] } ] }

/-- The record the transform emits from `csvC8`. -/
def recC8 : CoverageRecord :=
  { country := "India", antigen := "coverage__mcv1", year := 2000, coverage_pct := 50 }

/-- Witness for C8 on a record emitted from a concrete snapshot. -/
theorem C8_year_range_witness : 1980 ≤ recC8.year ∧ recC8.year ≤ 2100 :=
  C8_year_range csvC8 recC8 (by decide)

/-- A one-row, one-coverage-column snapshot exercising the antigen
naming of the transform. -/
def csvC1 : RawCsv :=
  { columns := ["coverage__mcv1"],
    rows := [ { entity := "India", year := 2000, cells := [some 50] } ] }

/-- C1 counterexample: on a snapshot with the single coverage column
`coverage__mcv1`, the emitted record's antigen is the full column name
`coverage__mcv1`, not the prefix-stripped `mcv1` the claim requires. -/
theorem C1_antigen_counterexample :
    (run_etl_tidy csvC1).map CoverageRecord.antigen = ["coverage__mcv1"] ∧
      ("coverage__mcv1" : String) ≠ "mcv1" := by
  decide

/-- C1 amended: every record emitted by the transform has as antigen
the source coverage column name verbatim — a member of the snapshot's
column list that still carries the `coverage__` prefix. -/
theorem C1_antigen_is_unstripped_column (csv : RawCsv) (r : CoverageRecord)
    (h : r ∈ run_etl_tidy csv) :
    r.antigen ∈ csv.columns ∧ startsWithMarker r.antigen = true := by
  unfold run_etl_tidy at h
  have h1 := (List.mem_filter.mp h).1
  obtain ⟨x, hx, hfx⟩ := List.mem_filterMap.mp h1
  rw [dropnaRename_eq_some_iff] at hfx
  subst hfx
  obtain ⟨row, _, hmem⟩ := List.mem_flatMap.mp hx
  obtain ⟨p, hp, hpe⟩ := List.mem_map.mp hmem
  have hpf := List.mem_filter.mp hp
  have hzip : p.1 ∈ csv.columns ∧ p.2 ∈ row.cells :=
    List.of_mem_zip (by simpa using hpf.1)
  have hc : p.1 = r.antigen := congrArg (fun q => q.2.2.1) hpe
  exact ⟨hc ▸ hzip.1, hc ▸ hpf.2⟩

/-- The record the transform emits from `csvC1`. -/
def recC1 : CoverageRecord :=
  { country := "India", antigen := "coverage__mcv1", year := 2000, coverage_pct := 50 }

/-- Witness for the amended C1 on a concrete snapshot. -/
theorem C1_antigen_is_unstripped_column_witness :
    recC1.antigen ∈ csvC1.columns ∧ startsWithMarker recC1.antigen = true :=
  C1_antigen_is_unstripped_column csvC1 recC1 (by decide)

/-- C3: a melted (row, coverage-column) entry yields a record in the
transform's output exactly when its coverage value is non-null and the
year passes the 1980–2100 filter; in particular every null entry is
absent and nothing else is dropped. -/
theorem C3_null_drop_exact (csv : RawCsv) (e c : String) (y : Int) (v : ℚ) :
    ({ country := e, antigen := c, year := y, coverage_pct := v } : CoverageRecord) ∈
        run_etl_tidy csv ↔
      ((e, y, c, some v) ∈ melt csv ∧ 1980 ≤ y ∧ y ≤ 2100) := by
  unfold run_etl_tidy
  rw [List.mem_filter, List.mem_filterMap]
  simp only [dropnaRename_eq_some_iff, decide_eq_true_eq]
  constructor
  · rintro ⟨⟨x, hx, hxe⟩, hy⟩
    subst hxe
    exact ⟨hx, hy⟩
  · rintro ⟨hm, hy⟩
    exact ⟨⟨_, hm, rfl⟩, hy⟩

/-- The concrete series of the spec's worked scenario. -/
def seriesC6 : List (Int × ℚ) :=
  [(2015, 60), (2016, 62), (2017, 65), (2018, 80), (2019, 85), (2020, 88)]

/-- C6: on the series `[(2015,60),…,(2020,88)]` with campaign year 2018
and 2-year windows, the before values are `[62, 65]` and the after
values `[80, 85, 88]`; the means are `127/2 = 63.5` and
`253/3 = 84.33…`, and the signed difference is `125/6 = 20.83…`
(both within 0.01 of the quoted 84.33 and +20.83). -/
theorem C6_concrete_scenario :
    beforeVals seriesC6 2018 2 = [62, 65] ∧
    afterVals seriesC6 2018 2 = [80, 85, 88] ∧
    compareWindows seriesC6 2018 2 2 =
      CompareResult.stats { avg_before := 127/2, avg_after := 253/3, diff := 125/6 } ∧
    (127/2 : ℚ) = 635/10 ∧
    (8433/100 : ℚ) < 253/3 ∧ (253/3 : ℚ) < 8434/100 ∧
    (2083/100 : ℚ) < 125/6 ∧ (125/6 : ℚ) < 2084/100 := by
  refine ⟨by decide, by decide, ?_, by norm_num, by norm_num, by norm_num,
    by norm_num, by norm_num⟩
  norm_num [compareWindows, beforeVals, afterVals, beforeWindow, afterWindow, listMean,
    seriesC6, List.filter, List.sum_cons, List.sum_nil]

/-- C9: after loading a coverage table into the store, querying a
(country, antigen) pair returns exactly the table's (year, coverage)
pairs for that key — as a permutation of them — ordered by year
ascending; for an absent pair this is the empty list, not an error. -/
theorem C9_load_query_roundtrip (tbl st : List CoverageRecord) (country antigen : String)
    (h : loadCoverage tbl = some st) :
    (queryCoverage st country antigen).Perm
        ((tbl.filter (fun r => decide (r.country = country ∧ r.antigen = antigen))).map
          (fun r => (r.year, r.coverage_pct))) ∧
      List.Sorted yearLE (queryCoverage st country antigen) := by
  have hst : st = tbl := by
    unfold loadCoverage at h
    split at h
    · exact (Option.some.inj h).symm
    · cases h
  subst hst
  exact ⟨List.perm_insertionSort yearLE _, List.sorted_insertionSort yearLE _⟩

/-- A concrete coverage table with distinct primary keys. -/
def tblC9 : List CoverageRecord :=
  [ { country := "India", antigen := "coverage__mcv1", year := 2001, coverage_pct := 55 },
    { country := "India", antigen := "coverage__mcv1", year := 2000, coverage_pct := 50 },
    { country := "Chad", antigen := "coverage__bcg", year := 2000, coverage_pct := 40 } ]

/-- Witness for C9 on a concrete table. -/
theorem C9_load_query_roundtrip_witness :
    (queryCoverage tblC9 "India" "coverage__mcv1").Perm
        ((tblC9.filter
            (fun r => decide (r.country = "India" ∧ r.antigen = "coverage__mcv1"))).map
          (fun r => (r.year, r.coverage_pct))) ∧
      List.Sorted yearLE (queryCoverage tblC9 "India" "coverage__mcv1") :=
  C9_load_query_roundtrip tblC9 tblC9 "India" "coverage__mcv1" (by decide)

/-- C10: the ETL is idempotent over a fixed upstream snapshot — a
second run on the database produced by a first run succeeds and leaves
the database, in particular its `immunization` table, unchanged
(drop-and-recreate semantics make the result depend only on the
snapshot). -/
theorem C10_etl_idempotent (csv : RawCsv) (db db2 : Database)
    (h : run_etl csv db = some db2) : run_etl csv db2 = some db2 := by
  unfold run_etl at h ⊢
  cases hl : loadCoverage (run_etl_tidy csv) with
  | none =>
    rw [hl] at h
    exact Option.noConfusion h
  | some tbl =>
    rw [hl] at h
    exact h

/-- The snapshot used to witness C10. -/
def csvC10 : RawCsv :=
  { columns := ["coverage__mcv1"],
    rows := [ { entity := "India", year := 2000, cells := [some 50] },
              { entity := "India", year := 2001, cells := [some 55] } ] }

/-- The database state after one ETL run on `csvC10`. -/
def dbC10 : Database :=
  { owid_raw := some csvC10,
    immunization := some
      [ { country := "India", antigen := "coverage__mcv1", year := 2000, coverage_pct := 50 },
        { country := "India", antigen := "coverage__mcv1", year := 2001, coverage_pct := 55 } ] }

/-- Witness for C10: re-running the ETL on the freshly produced
database reproduces it exactly. -/
theorem C10_etl_idempotent_witness : run_etl csvC10 dbC10 = some dbC10 :=
  C10_etl_idempotent csvC10 { owid_raw := none, immunization := none } dbC10 (by decide)

/-- A snapshot giving the analyzed pair only one observation, so the
comparison lacks data. -/
def csvC4 : RawCsv :=
  { columns := ["coverage__mcv1"],
    rows := [ { entity := "India", year := 2016, cells := [some 50] } ] }

/-- C4 counterexample: invoking the batch entry point with both
`--country India` and `--antigen coverage__mcv1` supplied on a snapshot
whose series has a single observation writes no artifact at all — the
run ends at the not-enough-data notice instead of producing
`coverage_India_coverage__mcv1.csv` and `plot_India_coverage__mcv1.png`. -/
theorem C4_artifacts_counterexample :
    (main_run csvC4 { owid_raw := none, immunization := none }
          (some "India") (some "coverage__mcv1") 2017 5 5).map Prod.snd = some [] ∧
      ([] : List String) ≠
        [out_csv "India" "coverage__mcv1", out_png "India" "coverage__mcv1"] := by
  decide

/-- C4 amended: when the batch entry point is invoked with both country
and antigen supplied (and nonempty) and the run succeeds, it writes
either exactly the two artifacts `coverage_<country>_<antigen>.csv` and
`plot_<country>_<antigen>.png` (spaces replaced by underscores) or
nothing, and it writes the two artifacts precisely when the queried
series is nonempty and both comparison windows have at least 2
observations. -/
theorem C4_artifacts_amended (csv : RawCsv) (db db2 : Database) (arts : List String)
    (country antigen : String) (start_year pre_years post_years : Int)
    (hc : country ≠ "") (ha : antigen ≠ "")
    (h : main_run csv db (some country) (some antigen) start_year pre_years post_years =
      some (db2, arts)) :
    (arts = [out_csv country antigen, out_png country antigen] ∨ arts = []) ∧
    (arts = [out_csv country antigen, out_png country antigen] ↔
      (queryCoverage (db2.immunization.getD []) country antigen ≠ [] ∧
        compareWindows (queryCoverage (db2.immunization.getD []) country antigen)
          start_year pre_years post_years ≠ CompareResult.insufficientData)) := by
  unfold main_run at h
  cases he : run_etl csv db with
  | none =>
    rw [he] at h
    exact Option.noConfusion h
  | some d =>
    rw [he] at h
    dsimp only at h
    rw [if_pos ⟨hc, ha⟩] at h
    have hd : d = db2 := congrArg Prod.fst (Option.some.inj h)
    subst hd
    have harts :
        artifactsWritten
          (run_analysis (d.immunization.getD []) country antigen
            start_year pre_years post_years) = arts :=
      congrArg Prod.snd (Option.some.inj h)
    subst harts
    by_cases hE : queryCoverage (d.immunization.getD []) country antigen = []
    · simp [run_analysis, hE, artifactsWritten]
    · cases hcw : compareWindows (queryCoverage (d.immunization.getD []) country antigen)
          start_year pre_years post_years with
      | insufficientData =>
        simp [run_analysis, hE, hcw, artifactsWritten, List.isEmpty_iff]
      | stats st =>
        simp [run_analysis, hE, hcw, artifactsWritten, List.isEmpty_iff]

/-- A snapshot with enough observations on both sides of 2018. -/
def csvC4w : RawCsv :=
  { columns := ["coverage__mcv1"],
    rows := [ { entity := "India", year := 2015, cells := [some 60] },
              { entity := "India", year := 2016, cells := [some 62] },
              { entity := "India", year := 2017, cells := [some 65] },
              { entity := "India", year := 2018, cells := [some 80] },
              { entity := "India", year := 2019, cells := [some 85] },
              { entity := "India", year := 2020, cells := [some 88] } ] }

/-- The database state after the ETL stage of the witness run. -/
def db2C4w : Database :=
  { owid_raw := some csvC4w,
    immunization := some
      [ { country := "India", antigen := "coverage__mcv1", year := 2015, coverage_pct := 60 },
        { country := "India", antigen := "coverage__mcv1", year := 2016, coverage_pct := 62 },
        { country := "India", antigen := "coverage__mcv1", year := 2017, coverage_pct := 65 },
        { country := "India", antigen := "coverage__mcv1", year := 2018, coverage_pct := 80 },
        { country := "India", antigen := "coverage__mcv1", year := 2019, coverage_pct := 85 },
        { country := "India", antigen := "coverage__mcv1", year := 2020, coverage_pct := 88 } ] }

/-- The artifact files the witness run writes. -/
def artsC4w : List String :=
  [out_csv "India" "coverage__mcv1", out_png "India" "coverage__mcv1"]

/-- Witness for the amended C4 on a successful concrete run. -/
theorem C4_artifacts_amended_witness :
    (artsC4w = [out_csv "India" "coverage__mcv1", out_png "India" "coverage__mcv1"] ∨
      artsC4w = []) ∧
    (artsC4w = [out_csv "India" "coverage__mcv1", out_png "India" "coverage__mcv1"] ↔
      (queryCoverage (db2C4w.immunization.getD []) "India" "coverage__mcv1" ≠ [] ∧
        compareWindows (queryCoverage (db2C4w.immunization.getD []) "India" "coverage__mcv1")
          2018 2 2 ≠ CompareResult.insufficientData)) :=
  C4_artifacts_amended csvC4w { owid_raw := none, immunization := none } db2C4w artsC4w
    "India" "coverage__mcv1" 2018 2 2 (by decide) (by decide) (by decide)

end VaccinationETL
